import Mathlib

/-
  Verification of the craft-dominant analytics dashboard client
  (src/pages/index.js, first snapshot, lines 1-1460).

  The client is a single React component plus pure presentation helpers.
  We shallowly embed the pieces of the code the specification talks about:

  * the component's useState cells become the fields of a structure `St`;
  * each `fetch(...).then(parse).then(onOk)[.catch(onErr)]` chain becomes a
    pure function from a `FetchOutcome` (parsed body, or network/parse
    failure) to a state transformer.  A chain WITHOUT a `.catch` handler is
    embedded with `none` for the failure continuation: in the browser an
    unhandled promise rejection runs no user code and leaves all component
    state untouched, so the embedding maps `failed` to the identity there;
  * `setTimeout(f, ms)` becomes appending `ms` to a list of pending timers
    (`dashTimers` for the 10s dashboard re-fetch, `pollTimers` for the 5s
    sync-status poll); firing a timer and the resolution of in-flight
    requests are the events of a small step function `syncStep`;
  * JavaScript truthiness on optional strings (`if (s.error)`,
    `targeting?.export_token ? ... : ''`, `!overlapCity`) is embedded by
    `jsTruthyStr`: absent (undefined/null) and the empty string are falsy;
  * JS numbers that the claims touch are embedded as exact rationals
    (`Option ℚ` when the field may be absent).
-/

namespace Craft

/-- JavaScript truthiness of an optional string value: `undefined`/`null`
(here `none`) and the empty string are falsy, every other string is truthy. -/
def jsTruthyStr : Option String → Bool
  | none => false
  | some s => !(s == "")

/-- Embedding of the JS idiom `x || 0` on an optional number `x`
(`undefined` and `0` are falsy, both yield `0`). -/
def jsOrZero : Option ℚ → ℚ
  | none => 0
  | some x => if x = 0 then 0 else x

/-- Uppercase hexadecimal digit for `n < 16`, as produced by JS
`encodeURIComponent` percent-escapes. -/
def hexDigit (n : Nat) : Char :=
  if n < 10 then Char.ofNat (48 + n) else Char.ofNat (55 + n)

/-- UTF-8 byte sequence of a unicode scalar value (the encoding
`encodeURIComponent` applies before percent-escaping). -/
def utf8Bytes (c : Char) : List Nat :=
  let n := c.toNat
  if n < 128 then [n]
  else if n < 2048 then [192 + n / 64, 128 + n % 64]
  else if n < 65536 then [224 + n / 4096, 128 + (n / 64) % 64, 128 + n % 64]
  else [240 + n / 262144, 128 + (n / 4096) % 64, 128 + (n / 64) % 64, 128 + n % 64]

/-- Characters `encodeURIComponent` leaves unescaped besides ASCII
letters and digits: `- _ . ! ~ * ' ( )`. -/
def uriUnreservedMark (c : Char) : Bool :=
  c = '-' || c = '_' || c = '.' || c = '!' || c = '~' || c = '*' ||
  c = Char.ofNat 39 || c = '(' || c = ')'

/-- Percent-escaping of a single character per `encodeURIComponent`. -/
def encodeChar (c : Char) : List Char :=
  if (c.isAlphanum && c.toNat < 128) || uriUnreservedMark c then [c]
  else (utf8Bytes c).foldr
    (fun b acc => '%' :: hexDigit (b / 16) :: hexDigit (b % 16) :: acc) []

/-- Embedding of the JS builtin `encodeURIComponent`. -/
def encodeURIComponent (s : String) : String :=
  String.mk (s.data.foldr (fun c acc => encodeChar c ++ acc) [])

/-- src/pages/index.js line 4: the fixed API origin. -/
def API_BASE : String := "https://craft-dominant-production.up.railway.app"

/-- The `sync` block of the dashboard snapshot payload
(fields read at src/pages/index.js lines 582-583). -/
structure SyncInfo where
  running : Bool
  error : Option String

/-- An event record of the dashboard snapshot; the embedded handlers and
claims only touch its identifier and its sell-through percentage
(src/pages/index.js lines 78, 580). -/
structure EventRec where
  event_id : String
  sell_through : Option ℚ

/-- The parsed `/api/dashboard` snapshot body, restricted to the fields
the embedded handlers read (src/pages/index.js lines 578-583). -/
structure Dash where
  events : List EventRec
  sync : Option SyncInfo

/-- A customer record, restricted to the fields the claims touch
(src/pages/index.js lines 219-226). -/
structure CustomerRec where
  email : String
  total_spent : Option ℚ
  ltv_score : Option ℚ

/-- An order record of the customer detail payload
(src/pages/index.js lines 309-313). -/
structure OrderRec where
  event_name : String
  gross_amount : Option ℚ

/-- The parsed `/api/customers` body (src/pages/index.js line 594). -/
structure CustomersResp where
  customers : Option (List CustomerRec)
  total : Option Nat

/-- The parsed `/api/customers/{email}` body (src/pages/index.js line 630). -/
structure CustomerDetailResp where
  customer : Option CustomerRec
  orders : Option (List OrderRec)

/-- The parsed `/api/targeting/{event_id}` body, restricted to the export
token the CSV export handlers read (src/pages/index.js line 634). -/
structure TargetingResp where
  export_token : Option String

/-- The parsed `/api/intelligence/{event_id}` body, restricted to the
export token (src/pages/index.js line 644). -/
structure IntelResp where
  export_token : Option String

/-- The parsed `/api/overlap` body, restricted to the city list
(src/pages/index.js line 620). -/
structure OverlapResp where
  cities : List String

/-- The parsed `/api/sync-status` body (src/pages/index.js line 652). -/
structure SyncStatus where
  done : Bool
  error : Option String

/-- The component state of `CraftDashboard`: one field per `useState` cell
the claims touch (src/pages/index.js lines 538-575), plus the embedding's
bookkeeping of pending timers and in-flight requests of the sync
lifecycle controller (`setTimeout(fetchDashboard, 10000)`,
`setTimeout(poll, 5000)`, and the `/api/sync`, `/api/sync-status` and
`/api/dashboard` requests they race with). -/
structure St where
  dashboard : Option Dash
  selectedEvent : Option EventRec
  loading : Bool
  syncing : Bool
  syncError : Option String
  customers : List CustomerRec
  customerTotal : Nat
  selectedCustomer : Option CustomerRec
  customerOrders : List OrderRec
  targeting : Option TargetingResp
  targetingLoading : Bool
  selectedAudience : Option String
  intel : Option IntelResp
  intelLoading : Bool
  overlap : Option OverlapResp
  overlapLoading : Bool
  overlapCity : String
  crmSearch : String
  crmSegment : String
  crmCity : String
  crmType : String
  crmSort : String
  crmOrder : String
  crmPage : Nat
  crmCities : List String
  crmTypes : List String
  dashTimers : List Nat
  pollTimers : List Nat
  statusInflight : Nat
  syncReqInflight : Nat
  dashRequests : Nat

/-- The initial state on mount: the `useState` initial values of
src/pages/index.js lines 538-575, with no pending timers or requests. -/
def initialState : St :=
  { dashboard := none, selectedEvent := none, loading := true,
    syncing := false, syncError := none, customers := [], customerTotal := 0,
    selectedCustomer := none, customerOrders := [], targeting := none,
    targetingLoading := false, selectedAudience := none, intel := none,
    intelLoading := false, overlap := none, overlapLoading := false,
    overlapCity := "", crmSearch := "", crmSegment := "", crmCity := "",
    crmType := "", crmSort := "ltv_score", crmOrder := "DESC", crmPage := 0,
    crmCities := [], crmTypes := [], dashTimers := [], pollTimers := [],
    statusInflight := 0, syncReqInflight := 0, dashRequests := 0 }

/-- Outcome of one `fetch(...).then(r => r.json())`: either the parsed
body, or a network/JSON-parse failure (the promise rejects). -/
inductive FetchOutcome (α : Type) where
  | ok (val : α)
  | failed

/-- Applies a fetch outcome to the continuations a source fetch chain
installs: `onOk` is the `.then(d => ...)` body; `onErr` is `some h` when
the chain ends in `.catch(h)` and `none` when it has no `.catch` — an
unhandled rejection runs no component code, so `failed` is then the
identity on the state. -/
def runFetch {α : Type} (onOk : α → St → St) (onErr : Option (St → St)) :
    FetchOutcome α → St → St
  | FetchOutcome.ok a, st => onOk a st
  | FetchOutcome.failed, st =>
    match onErr with
    | some h => h st
    | none => st

/-- Truthiness of `d.sync?.running` (src/pages/index.js line 582). -/
def dashSyncRunning (d : Dash) : Bool :=
  match d.sync with
  | some sy => sy.running
  | none => false

/-- The `.then` body of `fetchDashboard` (src/pages/index.js lines
578-584): store the snapshot, select the first event when present, clear
`loading`; if the snapshot reports a running sync, enter `syncing` and
schedule one `fetchDashboard` re-fetch after 10000 ms, otherwise leave
`syncing` and surface `d.sync?.error` when truthy. -/
def onDashboardResponse (d : Dash) (st : St) : St :=
  let st1 := { st with dashboard := some d,
                       selectedEvent := match d.events with
                         | e :: _ => some e
                         | [] => st.selectedEvent,
                       loading := false }
  if dashSyncRunning d then
    { st1 with syncing := true, dashTimers := st1.dashTimers ++ [10000] }
  else
    let st2 := { st1 with syncing := false }
    let errOpt := d.sync.bind SyncInfo.error
    if jsTruthyStr errOpt then { st2 with syncError := errOpt } else st2

/-- The `.catch` of `fetchDashboard` (src/pages/index.js line 584):
`() => setLoading(false)`. -/
def onDashboardFailure (st : St) : St := { st with loading := false }

/-- The complete `fetchDashboard` response behaviour. -/
def dashboardFetch : FetchOutcome Dash → St → St :=
  runFetch onDashboardResponse (some onDashboardFailure)

/-- The `.then` body of `fetchCustomers` (src/pages/index.js line 594):
`setCustomers(d.customers || []); setCustomerTotal(d.total || 0)`. -/
def onCustomersResponse (d : CustomersResp) (st : St) : St :=
  { st with customers := d.customers.getD [],
            customerTotal := d.total.getD 0 }

/-- `fetchCustomers` has no `.catch` (src/pages/index.js line 594). -/
def customersFetch : FetchOutcome CustomersResp → St → St :=
  runFetch onCustomersResponse none

/-- The `.then` body of `handleSelectCustomer` (src/pages/index.js line
630): `setSelectedCustomer(d.customer); setCustomerOrders(d.orders || [])`. -/
def onCustomerDetailResponse (d : CustomerDetailResp) (st : St) : St :=
  { st with selectedCustomer := d.customer,
            customerOrders := d.orders.getD [] }

/-- `handleSelectCustomer` has no `.catch` (src/pages/index.js line 630). -/
def customerDetailFetch : FetchOutcome CustomerDetailResp → St → St :=
  runFetch onCustomerDetailResponse none

/-- The cities lookup (src/pages/index.js line 601):
`.then(setCrmCities).catch(() => {})`. -/
def citiesFetch : FetchOutcome (List String) → St → St :=
  runFetch (fun l st => { st with crmCities := l }) (some (fun st => st))

/-- The event-types lookup (src/pages/index.js line 602):
`.then(setCrmTypes).catch(() => {})`. -/
def eventTypesFetch : FetchOutcome (List String) → St → St :=
  runFetch (fun l st => { st with crmTypes := l }) (some (fun st => st))

/-- The targeting fetch of `fetchTargeting` (src/pages/index.js line 610):
`.then(d => { setTargeting(d); setTargetingLoading(false); })
 .catch(() => setTargetingLoading(false))`. -/
def targetingFetch : FetchOutcome TargetingResp → St → St :=
  runFetch (fun d st => { st with targeting := some d, targetingLoading := false })
    (some (fun st => { st with targetingLoading := false }))

/-- The intelligence fetch of `fetchTargeting` (src/pages/index.js line 612). -/
def intelFetch : FetchOutcome IntelResp → St → St :=
  runFetch (fun d st => { st with intel := some d, intelLoading := false })
    (some (fun st => { st with intelLoading := false }))

/-- The `.then` body of the overlap fetch (src/pages/index.js lines
618-621): `setOverlap(d); if (d.cities?.length && !overlapCity)
setOverlapCity(d.cities[0]); setOverlapLoading(false)`. -/
def onOverlapResponse (d : OverlapResp) (st : St) : St :=
  let st1 := { st with overlap := some d }
  let st2 := match d.cities with
    | c :: _ => if st1.overlapCity = "" then { st1 with overlapCity := c } else st1
    | [] => st1
  { st2 with overlapLoading := false }

/-- The overlap fetch with its `.catch(() => setOverlapLoading(false))`
(src/pages/index.js line 622). -/
def overlapFetch : FetchOutcome OverlapResp → St → St :=
  runFetch onOverlapResponse (some (fun st => { st with overlapLoading := false }))

/-- Issuing `fetchDashboard()`: one more `/api/dashboard` GET goes out. -/
def fetchDashboardReq (st : St) : St :=
  { st with dashRequests := st.dashRequests + 1 }

/-- The synchronous body of `triggerSync` (src/pages/index.js lines
649-651): `setSyncing(true); setSyncError(null); fetch('/api/sync')...`. -/
def triggerSync (st : St) : St :=
  { st with syncing := true, syncError := none,
            syncReqInflight := st.syncReqInflight + 1 }

/-- Events of the sync lifecycle controller (src/pages/index.js lines
649-655): resolution or rejection of the `/api/sync` trigger request, a
5000 ms poll timer firing (issuing one `/api/sync-status` request), and
resolution or rejection of an in-flight status request. -/
inductive SyncEv where
  | syncReqOk
  | syncReqFail
  | pollFires
  | statusOk (s : SyncStatus)
  | statusFail

/-- One step of the sync lifecycle controller, from src/pages/index.js
lines 651-654: the `/api/sync` `.then` schedules the first poll after
5000 ms (no `.catch`: a rejected trigger request runs nothing); a firing
poll timer issues one status request; a status body `s` with `s.done`
clears `syncing`, surfaces a truthy `s.error` and issues one final
`fetchDashboard()`, while `done: false` schedules exactly one more poll
after 5000 ms; the status chain has no `.catch`, so a failed status
request runs no component code. -/
def syncStep : SyncEv → St → St
  | SyncEv.syncReqOk, st =>
    if st.syncReqInflight = 0 then st
    else { st with syncReqInflight := st.syncReqInflight - 1,
                   pollTimers := st.pollTimers ++ [5000] }
  | SyncEv.syncReqFail, st =>
    if st.syncReqInflight = 0 then st
    else { st with syncReqInflight := st.syncReqInflight - 1 }
  | SyncEv.pollFires, st =>
    if st.pollTimers = [] then st
    else { st with pollTimers := st.pollTimers.tail,
                   statusInflight := st.statusInflight + 1 }
  | SyncEv.statusOk s, st =>
    if st.statusInflight = 0 then st
    else
      let st1 := { st with statusInflight := st.statusInflight - 1 }
      if s.done then
        let st2 := { st1 with syncing := false }
        let st3 := if jsTruthyStr s.error then { st2 with syncError := s.error } else st2
        fetchDashboardReq st3
      else { st1 with pollTimers := st1.pollTimers ++ [5000] }
  | SyncEv.statusFail, st =>
    if st.statusInflight = 0 then st
    else { st with statusInflight := st.statusInflight - 1 }

/-- The syncing banner (src/pages/index.js line 685) renders exactly when
`syncing` is set. -/
def syncingBannerShown (st : St) : Bool := st.syncing

/-- The sync error banner (src/pages/index.js line 686) renders exactly
when `syncError` is truthy. -/
def syncErrorBannerShown (st : St) : Bool := jsTruthyStr st.syncError

/-- The refresh button (src/pages/index.js line 680) is disabled exactly
when `syncing` is set. -/
def refreshDisabled (st : St) : Bool := st.syncing

/-- The progress-bar width formula `Math.min(100, p || 0)` used by the
event card (src/pages/index.js line 78), the revenue-gap bar (line 786)
and the rebuy-rate bar (line 807). -/
def barWidth (p : Option ℚ) : ℚ := min 100 (jsOrZero p)

/-- Embedding of JS `Number.prototype.toFixed(0)` on an exact rational:
round to the nearest integer, ties to the larger candidate (ECMA-262). -/
def jsToFixed0 (x : ℚ) : String := toString (Int.floor (x + 1/2))

/-- The customer-table spend cell (src/pages/index.js line 225):
JSX text `$` followed by the child `{c.total_spent?.toFixed(0)}`; React
renders an `undefined` child as nothing, so an absent spend yields `"$"`. -/
def spendCellTable (total_spent : Option ℚ) : String :=
  "$" ++ (match total_spent with
    | some x => jsToFixed0 x
    | none => "")

/-- The customer-modal spend stat (src/pages/index.js line 296): the
template literal `` `$${customer.total_spent?.toFixed(0)}` `` stringifies
an `undefined` interpolation as `"undefined"`. -/
def spendCellModal (total_spent : Option ℚ) : String :=
  "$" ++ (match total_spent with
    | some x => jsToFixed0 x
    | none => "undefined")

/-- The `keyParam` expression of the export handlers (src/pages/index.js
lines 634, 639, 644): `tok ? '&key=' + encodeURIComponent(tok) : ''` on
the optionally-chained export token. -/
def exportKeyParam (tok : Option String) : String :=
  if jsTruthyStr tok then "&key=" ++ encodeURIComponent (tok.getD "") else ""

/-- `handleExportCSV` (src/pages/index.js lines 632-636): returns the URL
passed to `window.open`, or `none` when no target event is selected
(`targetEvent` falsy) and the handler returns without opening anything. -/
def handleExportCSV (targetEvent : String) (targeting : Option TargetingResp)
    (audienceKey : String) : Option String :=
  if targetEvent = "" then none
  else
    some (API_BASE ++ "/api/export/csv?event_id=" ++ targetEvent ++
          "&audience=" ++ audienceKey ++
          exportKeyParam (targeting.bind TargetingResp.export_token))

/-- `handleExportAll` (src/pages/index.js lines 637-641): the same URL
with the fixed audience value `all`. -/
def handleExportAll (targetEvent : String) (targeting : Option TargetingResp) :
    Option String :=
  handleExportCSV targetEvent targeting "all"

/-- `handleIntelExport` (src/pages/index.js lines 642-646): the
intelligence CSV URL, signed with the intelligence payload's token. -/
def handleIntelExport (targetEvent : String) (intel : Option IntelResp)
    (audienceKey : String) : Option String :=
  if targetEvent = "" then none
  else
    some (API_BASE ++ "/api/export/intelligence-csv?event_id=" ++ targetEvent ++
          "&audience=" ++ audienceKey ++
          exportKeyParam (intel.bind IntelResp.export_token))

/-- The `onSort` handler of the customer table (src/pages/index.js line
1191): clicking the current sort field toggles DESC/ASC, clicking a new
field selects it and resets the order to DESC; either way the page is
reset to 0. -/
def onSort (field : String) (st : St) : St :=
  let st1 :=
    if st.crmSort = field then
      { st with crmOrder := if st.crmOrder = "DESC" then "ASC" else "DESC" }
    else
      { st with crmSort := field, crmOrder := "DESC" }
  { st1 with crmPage := 0 }

/-- The search input handler (src/pages/index.js line 1171):
`setCrmSearch(e.target.value); setCrmPage(0)`. -/
def changeSearch (v : String) (st : St) : St :=
  { st with crmSearch := v, crmPage := 0 }

/-- The city select handler (src/pages/index.js line 1173). -/
def changeCity (v : String) (st : St) : St :=
  { st with crmCity := v, crmPage := 0 }

/-- The event-type select handler (src/pages/index.js line 1178). -/
def changeType (v : String) (st : St) : St :=
  { st with crmType := v, crmPage := 0 }

/-- The segment card click handler (src/pages/index.js line 1162):
`setCrmSegment(isActive ? '' : s); setCrmPage(0)`. -/
def clickSegmentCard (s : String) (st : St) : St :=
  { st with crmSegment := if st.crmSegment = s then "" else s, crmPage := 0 }

/-- The clear-filters button (src/pages/index.js line 1184). -/
def clearFilters (st : St) : St :=
  { st with crmSearch := "", crmSegment := "", crmCity := "", crmType := "",
            crmPage := 0 }

/-- The fetched-data portion of the component state: everything except
the loading flags and the controller's timer/request bookkeeping.  Claim
C1 is about this projection being untouched by fetch failures. -/
structure DataView where
  dashboard : Option Dash
  selectedEvent : Option EventRec
  syncing : Bool
  syncError : Option String
  customers : List CustomerRec
  customerTotal : Nat
  selectedCustomer : Option CustomerRec
  customerOrders : List OrderRec
  targeting : Option TargetingResp
  intel : Option IntelResp
  overlap : Option OverlapResp
  overlapCity : String
  crmCities : List String
  crmTypes : List String

/-- Projects the fetched-data portion out of a component state. -/
def dataView (st : St) : DataView :=
  { dashboard := st.dashboard, selectedEvent := st.selectedEvent,
    syncing := st.syncing, syncError := st.syncError,
    customers := st.customers, customerTotal := st.customerTotal,
    selectedCustomer := st.selectedCustomer, customerOrders := st.customerOrders,
    targeting := st.targeting, intel := st.intel, overlap := st.overlap,
    overlapCity := st.overlapCity, crmCities := st.crmCities,
    crmTypes := st.crmTypes }

/-- A dashboard snapshot reporting a running upstream sync. -/
def runningSnapshot : Dash :=
  { events := [], sync := some { running := true, error := none } }

/-- A component state with one in-flight sync-status request, as after
the first poll timer of a triggered sync fired. -/
def pollingState : St :=
  { initialState with syncing := true, statusInflight := 1 }

/-- A component state displaying a sync error banner while idle. -/
def errorState : St :=
  { initialState with syncError := some "Eventbrite sync failed" }

/-- A sync-status body reporting completion with an error string. -/
def doneErrorStatus : SyncStatus := { done := true, error := some "boom" }

/-- A sync-status body reporting the job still running. -/
def notDoneStatus : SyncStatus := { done := false, error := none }

/-- A targeting payload carrying a server-issued export token. -/
def tokTargeting : Option TargetingResp :=
  some { export_token := some "craft token" }

/-- A sync-status body reporting clean completion. -/
def doneOkStatus : SyncStatus := { done := true, error := none }

/-- A dashboard snapshot whose sync block reports not running — the shape
a stale snapshot has when it was taken before a newly triggered sync
registered upstream. -/
def idleSnapshot : Dash :=
  { events := [], sync := some { running := false, error := none } }

/-- A first triggered sync run to clean completion: trigger, `/api/sync`
resolves, the poll timer fires, and the status response reports
`done: true` — which clears `syncing` (re-enabling the refresh button)
and issues the final `fetchDashboard()` that is now in flight. -/
def completedSyncState : St :=
  syncStep (SyncEv.statusOk doneOkStatus)
    (syncStep SyncEv.pollFires
      (syncStep SyncEv.syncReqOk (triggerSync initialState)))

/-- The user triggers a second sync while the final dashboard re-fetch of
the first sync is still in flight (the refresh button is enabled, since
`completedSyncState.syncing = false`). -/
def reTriggeredState : St := triggerSync completedSyncState

/-- The in-flight dashboard request resolves with its stale snapshot,
taken before the second `/api/sync` registered upstream: line 583 runs
`setSyncing(false)` although no status response for the second sync ever
reported `done: true`. -/
def staleClearedState : St := onDashboardResponse idleSnapshot reTriggeredState

/-- From the falsely idle state the user triggers a third sync; both the
second and third `/api/sync` requests resolve and both poll timers fire,
leaving two in-flight `/api/sync-status` requests at once. -/
def doubleChainState : St :=
  syncStep SyncEv.pollFires
    (syncStep SyncEv.pollFires
      (syncStep SyncEv.syncReqOk
        (syncStep SyncEv.syncReqOk (triggerSync staleClearedState))))

/-- Concatenating string data distributes over string append. -/
theorem strDataAppend (a b : String) : (a ++ b).data = a.data ++ b.data := by
  cases a; cases b; rfl

/-- Strings with equal character data are equal. -/
theorem strDataInj (a b : String) (h : a.data = b.data) : a = b := by
  cases a; cases b; cases h; rfl

/-- String append is cancellative on both sides: a shared left part and a
shared right part force the middles to agree. -/
theorem strCancel (P S a b : String) (h : P ++ a ++ S = P ++ b ++ S) : a = b := by
  apply strDataInj
  have h1 : P.data ++ (a.data ++ S.data) = P.data ++ (b.data ++ S.data) := by
    have h0 := congrArg String.data h
    simpa [strDataAppend, List.append_assoc] using h0
  exact List.append_cancel_right (List.append_cancel_left h1)

/-- Length of a string append. -/
theorem strLenAppend (a b : String) : (a ++ b).length = a.length + b.length := by
  show (a ++ b).data.length = a.data.length + b.data.length
  rw [strDataAppend]
  exact List.length_append _ _

/-- A string starting with the `&key=` marker is never empty. -/
theorem keyNeverEmpty (x : String) : "&key=" ++ x ≠ "" := by
  intro h
  have h1 := congrArg String.length h
  rw [strLenAppend] at h1
  have h2 : ("&key=" : String).length = 5 := by decide
  have h3 : ("" : String).length = 0 := by decide
  omega

/-- Claim C1: for every fetch operation of the data fetch layer (dashboard
snapshot, customer list, single customer, the city and event-type lookup
lists, targeting, intelligence, overlap, sync status), a network or parse
failure is swallowed: it runs at most a `.catch` that clears a loading
flag, so every piece of fetched data (the `dataView` projection) is left
at its prior value, while a successful response installs the parsed body
with the `|| []` / `|| 0` empty defaults of the source; every handler is a
total function, so no outcome crashes the view. -/
theorem C1_fetch_failures_leave_data (st : St) :
    dataView (dashboardFetch FetchOutcome.failed st) = dataView st ∧
    dataView (customersFetch FetchOutcome.failed st) = dataView st ∧
    dataView (customerDetailFetch FetchOutcome.failed st) = dataView st ∧
    dataView (citiesFetch FetchOutcome.failed st) = dataView st ∧
    dataView (eventTypesFetch FetchOutcome.failed st) = dataView st ∧
    dataView (targetingFetch FetchOutcome.failed st) = dataView st ∧
    dataView (intelFetch FetchOutcome.failed st) = dataView st ∧
    dataView (overlapFetch FetchOutcome.failed st) = dataView st ∧
    dataView (syncStep SyncEv.statusFail st) = dataView st ∧
    dataView (syncStep SyncEv.syncReqFail st) = dataView st ∧
    (∀ d : CustomersResp,
      (customersFetch (FetchOutcome.ok d) st).customers = d.customers.getD [] ∧
      (customersFetch (FetchOutcome.ok d) st).customerTotal = d.total.getD 0) ∧
    (∀ d : CustomerDetailResp,
      (customerDetailFetch (FetchOutcome.ok d) st).selectedCustomer = d.customer ∧
      (customerDetailFetch (FetchOutcome.ok d) st).customerOrders = d.orders.getD []) ∧
    (∀ d : Dash, (dashboardFetch (FetchOutcome.ok d) st).dashboard = some d) ∧
    (∀ t : TargetingResp, (targetingFetch (FetchOutcome.ok t) st).targeting = some t) ∧
    (∀ t : IntelResp, (intelFetch (FetchOutcome.ok t) st).intel = some t) ∧
    (∀ d : OverlapResp, (overlapFetch (FetchOutcome.ok d) st).overlap = some d) ∧
    (∀ l : List String, (citiesFetch (FetchOutcome.ok l) st).crmCities = l) ∧
    (∀ l : List String, (eventTypesFetch (FetchOutcome.ok l) st).crmTypes = l) := by
  refine ⟨rfl, rfl, rfl, rfl, rfl, rfl, rfl, rfl, ?_, ?_, ?_, ?_, ?_, ?_, ?_, ?_, ?_, ?_⟩
  · simp only [syncStep]
    split <;> rfl
  · simp only [syncStep]
    split <;> rfl
  · intro d
    exact ⟨rfl, rfl⟩
  · intro d
    exact ⟨rfl, rfl⟩
  · intro d
    simp only [dashboardFetch, runFetch, onDashboardResponse]
    by_cases hr : dashSyncRunning d = true
    · simp [hr]
    · simp only [Bool.not_eq_true] at hr
      simp only [hr, Bool.false_eq_true, if_false]
      by_cases he : jsTruthyStr (d.sync.bind SyncInfo.error) = true
      · simp [he]
      · simp only [Bool.not_eq_true] at he
        simp [he]
  · intro t
    exact rfl
  · intro t
    exact rfl
  · intro d
    simp only [overlapFetch, runFetch, onOverlapResponse]
    cases hc : d.cities with
    | nil => rfl
    | cons c rest =>
      by_cases ho : st.overlapCity = "" <;> simp [ho]
  · intro l
    exact rfl
  · intro l
    exact rfl

/-- Claim C2 counterexample: a concrete trace of the program's own
handlers on which the claim fails.  A first sync completes cleanly
(`done: true` clears `syncing` and issues the final `fetchDashboard()`);
the user re-triggers while that dashboard request is in flight; the stale
snapshot resolves with `running` falsy and line 583 clears `syncing` —
the controller is back to idle although no sync-status response for the
second sync ever reported `done: true` (no status request even exists:
`statusInflight = 0` and no poll timer is pending).  Triggering again
from that falsely idle state stacks a second poll chain, and after both
timers fire two `/api/sync-status` requests are in flight at once,
refuting the no-overlapping-status-requests guarantee as well. -/
theorem C2_poll_chain_counterexample :
    completedSyncState.syncing = false ∧
    completedSyncState.dashRequests = 1 ∧
    reTriggeredState.syncing = true ∧
    reTriggeredState.statusInflight = 0 ∧
    reTriggeredState.pollTimers = [] ∧
    staleClearedState.syncing = false ∧
    staleClearedState.statusInflight = 0 ∧
    staleClearedState.pollTimers = [] ∧
    doubleChainState.statusInflight = 2 := by
  refine ⟨by decide, by decide, by decide, by decide, by decide, by decide,
    by decide, by decide, by decide⟩

/-- Amended claim C2: after a trigger the controller transitions
idle→syncing immediately; among the sync-status poll chain's own events,
`syncing` is cleared only by a status response with `done: true`; a
`done: false` response consumes the in-flight request and schedules
exactly one more poll after the fixed 5000 ms delay, changing nothing
else; and a single chain keeps at most one pending item (trigger request,
poll timer or status request), so one chain never overlaps its own
status requests.  However, a dashboard snapshot response whose sync block
is not running also clears `syncing` (line 583), which is how the
counterexample returns to idle without a `done: true` status and then
stacks a second, overlapping chain. -/
theorem C2_sync_lifecycle_amended (st : St) (e : SyncEv) (s : SyncStatus) (d : Dash) :
    (triggerSync st).syncing = true ∧
    (st.syncing = true → (syncStep e st).syncing = false →
      ∃ s', e = SyncEv.statusOk s' ∧ s'.done = true) ∧
    (s.done = false → 1 ≤ st.statusInflight →
      syncStep (SyncEv.statusOk s) st =
        { st with statusInflight := st.statusInflight - 1,
                  pollTimers := st.pollTimers ++ [5000] }) ∧
    (st.syncReqInflight + st.pollTimers.length + st.statusInflight ≤ 1 →
      (syncStep e st).syncReqInflight + (syncStep e st).pollTimers.length +
        (syncStep e st).statusInflight ≤ 1) ∧
    ((triggerSync st).syncReqInflight + (triggerSync st).pollTimers.length +
        (triggerSync st).statusInflight =
      st.syncReqInflight + st.pollTimers.length + st.statusInflight + 1) ∧
    (dashSyncRunning d = false → (onDashboardResponse d st).syncing = false) := by
  refine ⟨rfl, ?_, ?_, ?_, ?_, ?_⟩
  · intro hsync hidle
    cases e with
    | syncReqOk =>
      exfalso
      by_cases h0 : st.syncReqInflight = 0 <;> simp [syncStep, h0, hsync] at hidle
    | syncReqFail =>
      exfalso
      by_cases h0 : st.syncReqInflight = 0 <;> simp [syncStep, h0, hsync] at hidle
    | pollFires =>
      exfalso
      by_cases h0 : st.pollTimers = [] <;> simp [syncStep, h0, hsync] at hidle
    | statusOk s' =>
      by_cases h0 : st.statusInflight = 0
      · exfalso
        simp [syncStep, h0, hsync] at hidle
      · by_cases hd : s'.done = true
        · exact ⟨s', rfl, hd⟩
        · exfalso
          simp only [Bool.not_eq_true] at hd
          simp [syncStep, h0, hd, hsync] at hidle
    | statusFail =>
      exfalso
      by_cases h0 : st.statusInflight = 0 <;> simp [syncStep, h0, hsync] at hidle
  · intro hdone hge
    have hne : st.statusInflight ≠ 0 := by omega
    cases st
    simp_all [syncStep]
  · intro hinv
    cases e with
    | syncReqOk =>
      by_cases h0 : st.syncReqInflight = 0
      · simpa [syncStep, h0] using hinv
      · simp only [syncStep, h0, if_false]
        simp only [List.length_append, List.length_cons, List.length_nil]
        omega
    | syncReqFail =>
      by_cases h0 : st.syncReqInflight = 0
      · simpa [syncStep, h0] using hinv
      · simp only [syncStep, h0, if_false]
        omega
    | pollFires =>
      by_cases h0 : st.pollTimers = []
      · simpa [syncStep, h0] using hinv
      · have hlen : 0 < st.pollTimers.length := List.length_pos.mpr h0
        simp only [syncStep, h0, if_false]
        simp only [List.length_tail]
        omega
    | statusOk s' =>
      by_cases h0 : st.statusInflight = 0
      · simpa [syncStep, h0] using hinv
      · by_cases hd : s'.done = true
        · by_cases he : jsTruthyStr s'.error = true
          · simp only [syncStep, h0, if_false, hd, if_true, he, fetchDashboardReq]
            omega
          · simp only [Bool.not_eq_true] at he
            simp only [syncStep, h0, if_false, hd, if_true, he, Bool.false_eq_true,
              fetchDashboardReq]
            omega
        · simp only [Bool.not_eq_true] at hd
          simp only [syncStep, h0, if_false, hd, Bool.false_eq_true,
            List.length_append, List.length_cons, List.length_nil]
          omega
    | statusFail =>
      by_cases h0 : st.statusInflight = 0
      · simpa [syncStep, h0] using hinv
      · simp only [syncStep, h0, if_false]
        omega
  · simp only [triggerSync]
    omega
  · intro hr
    by_cases he : jsTruthyStr (d.sync.bind SyncInfo.error) = true
    · simp [onDashboardResponse, hr, he]
    · simp only [Bool.not_eq_true] at he
      simp [onDashboardResponse, hr, he]

/-- Witness for the amended C2 at concrete inputs: from a state with one
in-flight status request, a `done: false` response schedules exactly one
more 5000 ms poll; a firing poll timer preserves the at-most-one-pending
invariant; the instance of the only-way-back-to-idle conjunct at a
`done: true` response recovers that the status body indeed reported
`done`; and a not-running dashboard snapshot clears `syncing`. -/
theorem C2_sync_lifecycle_amended_witness :
    syncStep (SyncEv.statusOk notDoneStatus) pollingState =
      { pollingState with statusInflight := pollingState.statusInflight - 1,
                          pollTimers := pollingState.pollTimers ++ [5000] } ∧
    (syncStep SyncEv.pollFires pollingState).syncReqInflight +
        (syncStep SyncEv.pollFires pollingState).pollTimers.length +
        (syncStep SyncEv.pollFires pollingState).statusInflight ≤ 1 ∧
    doneErrorStatus.done = true ∧
    (onDashboardResponse idleSnapshot pollingState).syncing = false := by
  refine ⟨?_, ?_, ?_, ?_⟩
  · exact (C2_sync_lifecycle_amended pollingState SyncEv.pollFires notDoneStatus
      idleSnapshot).2.2.1 rfl (by decide)
  · exact (C2_sync_lifecycle_amended pollingState SyncEv.pollFires notDoneStatus
      idleSnapshot).2.2.2.1 (by decide)
  · obtain ⟨s', heq, hdone⟩ :=
      (C2_sync_lifecycle_amended pollingState (SyncEv.statusOk doneErrorStatus)
        notDoneStatus idleSnapshot).2.1 rfl (by decide)
    injection heq with h
    rw [h]
    exact hdone
  · exact (C2_sync_lifecycle_amended pollingState SyncEv.pollFires notDoneStatus
      idleSnapshot).2.2.2.2.2 rfl

/-- Claim C3 counterexample: the width formula is `Math.min(100, p || 0)`
(src/pages/index.js lines 78, 786, 807), which clamps only from above; a
negative source percentage such as `-5` passes through, so the rendered
width is `-5`, refuting `0 ≤ width ≤ 100` for every source value. -/
theorem C3_bar_width_counterexample :
    barWidth (some (-5)) = -5 ∧
    ¬ (∀ p : Option ℚ, 0 ≤ barWidth p ∧ barWidth p ≤ 100) := by
  have hval : barWidth (some (-5)) = -5 := by
    simp only [barWidth, jsOrZero]
    norm_num [min_def]
  refine ⟨hval, ?_⟩
  intro h
  have h1 := (h (some (-5))).1
  rw [hval] at h1
  norm_num at h1

/-- Amended claim C3: for every source percentage value `p`, the rendered
progress-bar width never exceeds 100; and it is nonnegative whenever the
JS-coerced source value `p || 0` is nonnegative (in particular for absent
values and for all values in `[0, 100]` or above).  A negative source
percentage is passed through unclamped, as the counterexample shows. -/
theorem C3_bar_width_amended (p : Option ℚ) :
    barWidth p ≤ 100 ∧ (0 ≤ jsOrZero p → 0 ≤ barWidth p) := by
  constructor
  · exact min_le_left _ _
  · intro h
    exact le_min (by norm_num) h

/-- Witness for the amended C3 at the over-sold percentage 150: the
rendered width is clamped into `[0, 100]`. -/
theorem C3_bar_width_amended_witness :
    barWidth (some 150) ≤ 100 ∧ 0 ≤ barWidth (some 150) :=
  ⟨(C3_bar_width_amended (some 150)).1,
   (C3_bar_width_amended (some 150)).2 (by norm_num [jsOrZero])⟩

/-- Claim C4: a dashboard snapshot response reporting `sync.running`
makes the client enter the syncing state (banner shown) and schedules
exactly one dashboard re-fetch after the fixed 10000 ms delay, with no
user action involved (src/pages/index.js line 582). -/
theorem C4_running_snapshot_schedules_refetch (d : Dash) (st : St) :
    dashSyncRunning d = true →
    (onDashboardResponse d st).syncing = true ∧
    syncingBannerShown (onDashboardResponse d st) = true ∧
    (onDashboardResponse d st).dashTimers = st.dashTimers ++ [10000] := by
  intro hr
  simp [onDashboardResponse, hr, syncingBannerShown]

/-- Witness for C4: the concrete snapshot `runningSnapshot` applied to the
initial state. -/
theorem C4_running_snapshot_schedules_refetch_witness :
    (onDashboardResponse runningSnapshot initialState).syncing = true ∧
    syncingBannerShown (onDashboardResponse runningSnapshot initialState) = true ∧
    (onDashboardResponse runningSnapshot initialState).dashTimers =
      initialState.dashTimers ++ [10000] :=
  C4_running_snapshot_schedules_refetch runningSnapshot initialState rfl

/-- Claim C5 counterexample: `triggerSync` runs `setSyncError(null)`
immediately (src/pages/index.js line 650), so merely triggering a new
sync removes a visible error banner — contrary to the claim that the
error remains visible until the next sync completes cleanly. -/
theorem C5_trigger_clears_error_counterexample :
    syncErrorBannerShown errorState = true ∧
    (triggerSync errorState).syncError = none ∧
    syncErrorBannerShown (triggerSync errorState) = false := by
  refine ⟨by decide, rfl, by decide⟩

/-- Amended claim C5: when a sync-status response reports done with a
truthy error string, the error is stored and the banner shown; it then
remains visible until a new sync is triggered or the page reloads —
triggering a new sync clears it immediately, while every other controller
event and every dashboard response either preserves the stored error or
overwrites it with a newly reported sync error. -/
theorem C5_error_banner_lifecycle (st : St) (e : SyncEv) (s : SyncStatus) (d : Dash) :
    (1 ≤ st.statusInflight → s.done = true → jsTruthyStr s.error = true →
      (syncStep (SyncEv.statusOk s) st).syncError = s.error ∧
      syncErrorBannerShown (syncStep (SyncEv.statusOk s) st) = true) ∧
    (triggerSync st).syncError = none ∧
    ((syncStep e st).syncError = st.syncError ∨
      ∃ s', e = SyncEv.statusOk s' ∧ (syncStep e st).syncError = s'.error) ∧
    ((onDashboardResponse d st).syncError = st.syncError ∨
      (onDashboardResponse d st).syncError = d.sync.bind SyncInfo.error) := by
  refine ⟨?_, rfl, ?_, ?_⟩
  · intro hge hd he
    have hne : st.statusInflight ≠ 0 := by omega
    constructor
    · simp [syncStep, hne, hd, he, fetchDashboardReq]
    · simp [syncStep, hne, hd, he, fetchDashboardReq, syncErrorBannerShown]
  · cases e with
    | syncReqOk =>
      left
      simp only [syncStep]
      split <;> rfl
    | syncReqFail =>
      left
      simp only [syncStep]
      split <;> rfl
    | pollFires =>
      left
      simp only [syncStep]
      split <;> rfl
    | statusOk s' =>
      by_cases h0 : st.statusInflight = 0
      · left
        simp [syncStep, h0]
      · by_cases hd : s'.done = true
        · by_cases he : jsTruthyStr s'.error = true
          · right
            exact ⟨s', rfl, by simp [syncStep, h0, hd, he, fetchDashboardReq]⟩
          · left
            simp only [Bool.not_eq_true] at he
            simp [syncStep, h0, hd, he, fetchDashboardReq]
        · left
          simp only [Bool.not_eq_true] at hd
          simp [syncStep, h0, hd]
    | statusFail =>
      left
      simp only [syncStep]
      split <;> rfl
  · by_cases hr : dashSyncRunning d = true
    · left
      simp [onDashboardResponse, hr]
    · simp only [Bool.not_eq_true] at hr
      by_cases he : jsTruthyStr (d.sync.bind SyncInfo.error) = true
      · right
        simp [onDashboardResponse, hr, he]
      · left
        simp only [Bool.not_eq_true] at he
        simp [onDashboardResponse, hr, he]

/-- Witness for the amended C5: a done-with-error status response against
the polling state stores the error and shows the banner, and triggering a
sync from the error-displaying state clears the stored error. -/
theorem C5_error_banner_lifecycle_witness :
    (syncStep (SyncEv.statusOk doneErrorStatus) pollingState).syncError =
      doneErrorStatus.error ∧
    syncErrorBannerShown (syncStep (SyncEv.statusOk doneErrorStatus) pollingState) = true ∧
    (triggerSync errorState).syncError = none := by
  refine ⟨?_, ?_, ?_⟩
  · exact ((C5_error_banner_lifecycle pollingState SyncEv.pollFires doneErrorStatus
      runningSnapshot).1 (by decide) rfl (by decide)).1
  · exact ((C5_error_banner_lifecycle pollingState SyncEv.pollFires doneErrorStatus
      runningSnapshot).1 (by decide) rfl (by decide)).2
  · exact (C5_error_banner_lifecycle errorState SyncEv.pollFires doneErrorStatus
      runningSnapshot).2.1

/-- Claim C6: clicking the sort header of the field currently sorted on
keeps the field and toggles the order between DESC and ASC, while
clicking any other field selects it and always resets the order to DESC
(src/pages/index.js line 1191). -/
theorem C6_sort_toggle (st : St) (field : String) :
    (field = st.crmSort →
      (onSort field st).crmSort = st.crmSort ∧
      ((onSort field st).crmOrder = "ASC" ↔ st.crmOrder = "DESC") ∧
      ((onSort field st).crmOrder = "ASC" ∨ (onSort field st).crmOrder = "DESC")) ∧
    (field ≠ st.crmSort →
      (onSort field st).crmSort = field ∧ (onSort field st).crmOrder = "DESC") := by
  constructor
  · intro h
    subst h
    by_cases hd : st.crmOrder = "DESC" <;> simp [onSort, hd]
  · intro h
    have h' : ¬ (st.crmSort = field) := fun hh => h hh.symm
    simp [onSort, h']

/-- Witness for C6: on the initial state (sorted by `ltv_score`
descending), clicking `ltv_score` again toggles to ascending, while
clicking `total_spent` selects it and starts descending. -/
theorem C6_sort_toggle_witness :
    ((onSort "ltv_score" initialState).crmSort = initialState.crmSort ∧
     ((onSort "ltv_score" initialState).crmOrder = "ASC" ↔
       initialState.crmOrder = "DESC") ∧
     ((onSort "ltv_score" initialState).crmOrder = "ASC" ∨
       (onSort "ltv_score" initialState).crmOrder = "DESC")) ∧
    ((onSort "total_spent" initialState).crmSort = "total_spent" ∧
     (onSort "total_spent" initialState).crmOrder = "DESC") :=
  ⟨(C6_sort_toggle initialState "ltv_score").1 (by decide),
   (C6_sort_toggle initialState "total_spent").2 (by decide)⟩

/-- Claim C7: changing any customer-list filter — the free-text search,
the city selection, the event-type selection, or the segment card — sets
the chosen filter value and resets the current page to 0; the
clear-filters button also resets the page (src/pages/index.js lines
1162, 1171, 1173, 1178, 1184). -/
theorem C7_filters_reset_page (st : St) (v : String) :
    (changeSearch v st).crmPage = 0 ∧ (changeSearch v st).crmSearch = v ∧
    (changeCity v st).crmPage = 0 ∧ (changeCity v st).crmCity = v ∧
    (changeType v st).crmPage = 0 ∧ (changeType v st).crmType = v ∧
    (clickSegmentCard v st).crmPage = 0 ∧
    ((clickSegmentCard v st).crmSegment = if st.crmSegment = v then "" else v) ∧
    (clearFilters st).crmPage = 0 :=
  ⟨rfl, rfl, rfl, rfl, rfl, rfl, rfl, rfl, rfl⟩

/-- Claim C8: for a selected target event, CSV export URLs for two
different audience keys are distinct (for both the targeting and the
intelligence exporter); each URL carries the requested audience value in
its `audience` parameter followed by the key segment; and the key segment
is `&key=` with the URL-encoded token exactly when the loaded payload
carries a truthy (present, non-empty) export token, and is absent (empty)
otherwise. -/
theorem C8_export_urls (ev : String) (tg : Option TargetingResp)
    (it : Option IntelResp) (a1 a2 : String) :
    ev ≠ "" →
    ((a1 ≠ a2 → handleExportCSV ev tg a1 ≠ handleExportCSV ev tg a2) ∧
     (a1 ≠ a2 → handleIntelExport ev it a1 ≠ handleIntelExport ev it a2) ∧
     handleExportCSV ev tg a1 =
       some (API_BASE ++ "/api/export/csv?event_id=" ++ ev ++ "&audience=" ++
             a1 ++ exportKeyParam (tg.bind TargetingResp.export_token)) ∧
     handleIntelExport ev it a1 =
       some (API_BASE ++ "/api/export/intelligence-csv?event_id=" ++ ev ++
             "&audience=" ++ a1 ++ exportKeyParam (it.bind IntelResp.export_token)) ∧
     (∀ tok : String, tok ≠ "" →
       exportKeyParam (some tok) = "&key=" ++ encodeURIComponent tok) ∧
     (∀ o : Option String, exportKeyParam o = "" ↔ jsTruthyStr o = false)) := by
  intro hev
  refine ⟨?_, ?_, ?_, ?_, ?_, ?_⟩
  · intro hne heq
    apply hne
    simp only [handleExportCSV, if_neg hev, Option.some.injEq] at heq
    exact strCancel _ _ a1 a2 heq
  · intro hne heq
    apply hne
    simp only [handleIntelExport, if_neg hev, Option.some.injEq] at heq
    exact strCancel _ _ a1 a2 heq
  · simp only [handleExportCSV, if_neg hev]
  · simp only [handleIntelExport, if_neg hev]
  · intro tok htok
    simp [exportKeyParam, jsTruthyStr, htok]
  · intro o
    cases o with
    | none => simp [exportKeyParam, jsTruthyStr]
    | some s =>
      by_cases hs : s = ""
      · simp [exportKeyParam, jsTruthyStr, hs]
      · simp [exportKeyParam, jsTruthyStr, hs, keyNeverEmpty]

/-- Witness for C8: two concrete export requests on event `12345` with a
token-bearing targeting payload produce distinct URLs, and the URL for
`past_attendees` has the documented shape. -/
theorem C8_export_urls_witness :
    handleExportCSV "12345" tokTargeting "past_attendees" ≠
      handleExportCSV "12345" tokTargeting "at_risk" ∧
    handleExportCSV "12345" tokTargeting "past_attendees" =
      some (API_BASE ++ "/api/export/csv?event_id=" ++ "12345" ++ "&audience=" ++
            "past_attendees" ++
            exportKeyParam (tokTargeting.bind TargetingResp.export_token)) :=
  ⟨((C8_export_urls "12345" tokTargeting none "past_attendees" "at_risk")
      (by decide)).1 (by decide),
   ((C8_export_urls "12345" tokTargeting none "past_attendees" "at_risk")
      (by decide)).2.2.1⟩

/-- Claim C9, evaluated at the failing input `total_spent = undefined`:
the customer-table cell (src/pages/index.js line 225, JSX children)
renders the bare `$` placeholder, but the customer-modal stat
(src/pages/index.js line 296, a template literal) stringifies the
undefined interpolation and renders the string `$undefined`, violating
the claim for the modal; neither site throws and neither produces NaN,
since the optional chaining skips `toFixed` entirely. -/
theorem C9_spend_cell_eval :
    spendCellTable none = "$" ∧
    spendCellModal none = "$undefined" ∧
    spendCellModal none ≠ "$" := by
  refine ⟨rfl, rfl, by decide⟩

/-- Claim C10 (implicit): the sync-status fetch has no `.catch`
(src/pages/index.js line 652), so when an in-flight status request fails,
no component code runs: no further poll is scheduled, `syncing` is never
cleared, the stored error is untouched, and — if the chain was syncing —
the banner stays shown and the refresh control stays disabled. -/
theorem C10_status_failure_kills_poll_chain (st : St) :
    1 ≤ st.statusInflight →
    (syncStep SyncEv.statusFail st).pollTimers = st.pollTimers ∧
    (syncStep SyncEv.statusFail st).syncing = st.syncing ∧
    (syncStep SyncEv.statusFail st).syncError = st.syncError ∧
    (syncStep SyncEv.statusFail st).statusInflight = st.statusInflight - 1 ∧
    (st.syncing = true →
      syncingBannerShown (syncStep SyncEv.statusFail st) = true ∧
      refreshDisabled (syncStep SyncEv.statusFail st) = true) := by
  intro h
  have hne : st.statusInflight ≠ 0 := by omega
  refine ⟨by simp [syncStep, hne], by simp [syncStep, hne], by simp [syncStep, hne],
    by simp [syncStep, hne], ?_⟩
  intro hs
  constructor <;> simp [syncStep, hne, syncingBannerShown, refreshDisabled, hs]

/-- Witness for C10 at the polling state: after the single in-flight
status request fails, no poll timer exists, the state still reports
syncing, and the refresh button stays disabled. -/
theorem C10_status_failure_kills_poll_chain_witness :
    (syncStep SyncEv.statusFail pollingState).pollTimers = pollingState.pollTimers ∧
    (syncStep SyncEv.statusFail pollingState).syncing = pollingState.syncing ∧
    syncingBannerShown (syncStep SyncEv.statusFail pollingState) = true ∧
    refreshDisabled (syncStep SyncEv.statusFail pollingState) = true := by
  have h := C10_status_failure_kills_poll_chain pollingState (by decide)
  exact ⟨h.1, h.2.1, (h.2.2.2.2 rfl).1, (h.2.2.2.2 rfl).2⟩

end Craft
